import Mathlib

/-!
Shallow embedding of the inference pipeline of `src/dogscats/dogscats.py`
(a SageMaker-style training/inference script for a cats-vs-dogs image
classifier), together with theorems settling the spec claims about the
four serving hooks (`model_fn`, `input_fn`, `predict_fn`, `output_fn`),
the architecture-metadata mapping and the preprocessing transform.

Modelling conventions:
- Python strings are Lean `String`s; a model directory is the list of the
  file basenames it contains; `glob.glob` is a filter over that list.
- Raised Python exceptions become `Except Err` results, with an inductive
  error type recording which raise site fired (the script raises plain
  `Exception`/`IndexError`; the spec names them `UnsupportedContentTypeError`,
  `ModelNotFoundError`, `DecodeError`).
- Image tensors are tracked by their shape (a `List Nat` of dimensions);
  pixel contents are irrelevant to every claim except determinism, which
  holds at the shape level for the same reason it holds for pixels: the
  transform is a pure function.
- Floating-point scores in `predict_fn` are idealized as real numbers, so
  softmax is the exact `exp`-normalize transform; the serialized
  `confidence` value in `output_fn` is a rational (every Python float is
  a rational) rendered in decimal.
-/

namespace DogsCats

/-- `JSON_CONTENT_TYPE = 'application/json'` (line 39 of the source). -/
def JSON_CONTENT_TYPE : String := "application/json"

/-- `JPEG_CONTENT_TYPE = 'image/jpeg'` (line 40 of the source). -/
def JPEG_CONTENT_TYPE : String := "image/jpeg"

/-- The error outcomes of the script's raise sites.  `unsupportedContentType`
is the `raise Exception('Requested unsupported ContentType ...')` in
`input_fn`/`output_fn` (the spec's `UnsupportedContentTypeError`);
`noModelFile` is the `IndexError` from `glob.glob(...)[0]` on an empty match
list in `model_fn` (the spec's `ModelNotFoundError`); `decodeFail` is the
`PIL` decoding failure in `input_fn` (the spec's `DecodeError`). -/
inductive Err where
  | unsupportedContentType (ct : String)
  | noModelFile
  | decodeFail
deriving DecidableEq, Repr

/-- Whether string `s` starts with string `p` (as the glob prefix test). -/
def strStarts (p s : String) : Bool := p.data.isPrefixOf s.data

/-- Whether string `s` ends with string `p` (as the glob suffix test). -/
def strEnds (p s : String) : Bool := p.data.reverse.isPrefixOf s.data.reverse

/-- The filename filter performed by `glob.glob(f'(model_dir)/resnet*.pth')`
in `model_fn` (line 112): a basename matches iff it starts with `resnet` and
ends with `.pth` (the two parts cannot overlap: any string satisfying both
has length at least 10).  `glob` returns matches in OS directory order; the
input list models that order. -/
def globResnetPth (files : List String) : List String :=
  files.filter (fun f => strStarts "resnet" f && strEnds ".pth" f)

/-- `os.path.splitext(p)[0]`: drop the last dot-extension of a basename
(`"resnet18.pth"` becomes `"resnet18"`); a name without a dot is returned
unchanged. -/
def splitextBase (s : String) : String :=
  match s.data.reverse.dropWhile (fun c => c != '.') with
  | [] => s
  | _ :: base => ⟨base.reverse⟩

/-- The architecture-name discovery step of `model_fn` (line 112):
`os.path.splitext(os.path.split(glob.glob(f'(model_dir)/resnet*.pth')[0])[1])[0]`.
Indexing `[0]` on an empty glob result raises `IndexError`; otherwise the
first match's basename, without its `.pth` extension, is the architecture
name.  The rest of `model_fn` (weight loading, device placement) consumes
this name and is not needed by any claim about file matching. -/
def model_fn_arch (files : List String) : Except Err String :=
  match globResnetPth files with
  | [] => .error .noModelFile
  | f :: _ => .ok (splitextBase f)

/-- The backbone architectures of `torchvision.models` (`tvm`).  The five
resnet variants are the keys of `_model_meta` (lines 56-59); every other
member of `tvm` is represented by its name via `other`. -/
inductive Arch where
  | resnet18 | resnet34 | resnet50 | resnet101 | resnet152
  | other (name : String)
deriving DecidableEq, Repr

/-- The two split functions `_default_split` / `_resnet_split`
(lines 49-51); their bodies slice the torch module and are opaque to every
claim, so only their identity is tracked. -/
inductive SplitRule where
  | defaultSplit
  | resnetSplit
deriving DecidableEq, Repr

/-- An architecture-metadata record: the dicts `(cut: ..., split: ...)`
of lines 53-54. -/
structure ModelMeta where
  cut : Int
  split : SplitRule
deriving DecidableEq, Repr

/-- `_default_meta = (cut: -1, split: _default_split)` (line 53). -/
def defaultMeta : ModelMeta := ⟨-1, .defaultSplit⟩

/-- `_resnet_meta = (cut: -2, split: _resnet_split)` (line 54). -/
def resnetMeta : ModelMeta := ⟨-2, .resnetSplit⟩

/-- The dict `_model_meta` (lines 56-59), as a partial lookup: the five
resnet variants map to a copy of `_resnet_meta`; everything else is absent. -/
def modelMetaGet (a : Arch) : Option ModelMeta :=
  match a with
  | .resnet18 => some resnetMeta
  | .resnet34 => some resnetMeta
  | .resnet50 => some resnetMeta
  | .resnet101 => some resnetMeta
  | .resnet152 => some resnetMeta
  | .other _ => none

/-- The metadata-resolution step of `_create_model` (line 97):
`meta = _model_meta.get(arch, _default_meta)`.  The rest of
`_create_model` builds torch modules from `meta` and is outside every
claim's scope. -/
def createModelMeta (a : Arch) : ModelMeta :=
  (modelMetaGet a).getD defaultMeta

/-- Decimal parsing of a nonempty digit string, accumulator style. -/
def parseNatAux (acc : Nat) : List Char → Option Nat
  | [] => some acc
  | c :: rest =>
    if c.toNat < 48 ∨ 57 < c.toNat then none
    else parseNatAux (acc * 10 + (c.toNat - 48)) rest

/-- `int(s)` for a nonnegative decimal string: the parse fails (Python
raises `ValueError`) on an empty or non-digit string.  Signs, surrounding
whitespace and underscore separators, which Python's `int` also accepts,
are outside the model. -/
def parseNat (s : String) : Option Nat :=
  match s.data with
  | [] => none
  | l => parseNatAux 0 l

/-- `IMG_SIZE = int(os.environ.get('IMAGE_SIZE', '224'))` (line 43): the
environment variable (modelled as `Option String`) defaults to `"224"` and
is parsed as a decimal integer; `int(...)` raises on a non-numeric string,
modelled by `none`. -/
def imgSizeFromEnv (env : Option String) : Option Nat :=
  parseNat (env.getD "224")

/-- The dimension action of `transforms.Resize(256)` with an integer
argument (line 63): the shorter side becomes `target` and the other side is
scaled by the same ratio, `int`-truncated (on `(h, w)` with `h ≤ w` the
result is `(target, w * target / h)`). -/
def resizeDims (target : Nat) (d : Nat × Nat) : Nat × Nat :=
  if d.1 ≤ d.2 then (target, d.2 * target / d.1) else (d.1 * target / d.2, target)

/-- The dimension action of `transforms.CenterCrop(c)` (line 64): the
output is always a `c × c` square - the crop box is centered on the input
and, when the input is smaller than `c` on a side, the crop pads with
zeros, so the input dimensions never leak into the output shape. -/
def centerCropDims (c : Nat) (_d : Nat × Nat) : Nat × Nat := (c, c)

/-- The shape action of `_preprocess` (lines 62-67) on an RGB image of
dimensions `d`: `Resize(256)`, then `CenterCrop(size)`, then `ToTensor()`
(which prepends the 3 color channels; `Normalize` is shape-preserving).
The result is the tensor shape as a dimension list. -/
def preprocessShape (size : Nat) (d : Nat × Nat) : List Nat :=
  let resized := resizeDims 256 d
  let cropped := centerCropDims size resized
  [3, cropped.1, cropped.2]

/-- A request body as seen by `input_fn`: either bytes that `PIL` decodes
to an image of some dimensions, or bytes no image decoder accepts. -/
inductive RequestBody where
  | image (h w : Nat)
  | malformed
deriving DecidableEq, Repr

/-- `PIL.Image.open(io.BytesIO(request_body)).convert('RGB')` (line 131):
yields the decoded image's dimensions, or fails on malformed bytes. -/
def decodeImage (body : RequestBody) : Option (Nat × Nat) :=
  match body with
  | .image h w => some (h, w)
  | .malformed => none

/-- `input_fn` (lines 125-137), at the tensor-shape level of abstraction
and with the module-level `IMG_SIZE` passed explicitly.  Only a declared
content type equal to `JPEG_CONTENT_TYPE` is accepted; any other declared
type raises before the body is touched.  On the jpeg branch the body is
decoded, `_preprocess` is applied and `unsqueeze_(0)` prepends a batch
dimension. -/
def input_fn (size : Nat) (body : RequestBody) (ct : String) :
    Except Err (List Nat) :=
  if ct = JPEG_CONTENT_TYPE then
    match decodeImage body with
    | some d => .ok (1 :: preprocessShape size d)
    | none => .error .decodeFail
  else .error (.unsupportedContentType ct)

/-- `classes = ('cats', 'dogs')` (line 46). -/
def classes : List String := ["cats", "dogs"]

/-- Indexing `classes[i]` for the two valid indices. -/
def classAt (i : Fin 2) : String := classes.get ⟨i.1, by simp [classes]⟩

/-- `F.softmax(output, dim=1)` (line 145) on the single row of raw scores,
idealized over the reals: the exact exponential-normalize transform over
the two class scores. -/
noncomputable def softmax2 (v : Fin 2 → ℝ) (i : Fin 2) : ℝ :=
  Real.exp (v i) / (Real.exp (v 0) + Real.exp (v 1))

/-- `torch.max(preds, 1)` (line 149) on the single row: the maximum value
paired with its index; on a tie the smaller index is reported (exact ties
of the idealized reals correspond to equal scores). -/
noncomputable def torchMax2 (p : Fin 2 → ℝ) : ℝ × Fin 2 :=
  if p 0 < p 1 then (p 1, 1) else (p 0, 0)

/-- The result dict built by `predict_fn` (lines 151-153):
`response['class']`, `response['confidence']`. -/
structure PredOut where
  cls : String
  confidence : ℝ

/-- `predict_fn` (lines 140-155), idealized over the reals: run the model
on the input to get one raw score per class, softmax the scores, take the
maximum probability and its index, and return the class name at that index
together with that maximum probability.  The model is any function from
input objects (of arbitrary type `α`) to one raw score per class. -/
noncomputable def predict_fn {α : Type} (model : α → (Fin 2 → ℝ)) (input : α) :
    PredOut :=
  let output := model input
  let preds := softmax2 output
  let mi := torchMax2 preds
  ⟨classAt mi.2, mi.1⟩

/-- The prediction dict as `output_fn` receives it, with the float
confidence as the rational it denotes (every finite Python float is a
rational with a terminating decimal expansion). -/
structure Response where
  cls : String
  confidence : ℚ
deriving DecidableEq, Repr

/-- The digits after the decimal point of `num / den` (with `num < den`),
produced by long division, stopping when the remainder is zero; `fuel`
bounds the digit count (floats always terminate well inside 64 digits). -/
def fracDigits (fuel : Nat) (num den : Nat) : String :=
  match fuel with
  | 0 => ""
  | fuel + 1 =>
    if num = 0 then ""
    else toString (num * 10 / den) ++ fracDigits fuel (num * 10 % den) den

/-- The decimal rendering of a float value (held as the rational it
denotes) as Python's `json.dumps` prints it for ordinary magnitudes:
optional sign, integer part, a decimal point, and the fractional digits
(`"0"` when the value is integral, as `repr(1.0) = '1.0'`). -/
def floatRepr (q : ℚ) : String :=
  let n := q.num.natAbs
  let den := q.den
  let frac := fracDigits 64 (n % den) den
  (if q < 0 then "-" else "") ++ toString (n / den) ++ "." ++
    (if frac = "" then "0" else frac)

/-- `json.dumps(prediction)` (line 161) for the two-key dict built by
`predict_fn`: `(\x7b"class": <name>, "confidence": <float>\x7d)` with
`json.dumps`'s default `", "` / `": "` separators. -/
def jsonDumpsResponse (r : Response) : String :=
  "\x7b\"class\": \"" ++ r.cls ++ "\", \"confidence\": " ++
    floatRepr r.confidence ++ "\x7d"

/-- `output_fn` (lines 158-162): when the declared accept type is
`JSON_CONTENT_TYPE`, return the pair `(json.dumps(prediction), accept)`;
any other accept type raises. -/
def output_fn (pred : Response) (accept : String) :
    Except Err (String × String) :=
  if accept = JSON_CONTENT_TYPE then .ok (jsonDumpsResponse pred, accept)
  else .error (.unsupportedContentType accept)

/-! ### Helper lemmas about the softmax layer -/

/-- The softmax denominator is positive. -/
theorem expSum_pos (v : Fin 2 → ℝ) : 0 < Real.exp (v 0) + Real.exp (v 1) := by
  positivity

/-- Each softmax output is nonnegative. -/
theorem softmax2_nonneg (v : Fin 2 → ℝ) (i : Fin 2) : 0 ≤ softmax2 v i :=
  div_nonneg (Real.exp_pos _).le (expSum_pos v).le

/-- Each softmax output is at most one. -/
theorem softmax2_le_one (v : Fin 2 → ℝ) (i : Fin 2) : softmax2 v i ≤ 1 := by
  unfold softmax2
  rw [div_le_one (expSum_pos v)]
  have h0 := Real.exp_pos (v 0)
  have h1 := Real.exp_pos (v 1)
  fin_cases i <;> simp <;> linarith

/-- The two softmax outputs sum to one. -/
theorem softmax2_sum (v : Fin 2 → ℝ) : softmax2 v 0 + softmax2 v 1 = 1 := by
  unfold softmax2
  rw [div_add_div_same, div_self (expSum_pos v).ne']

/-- The value component of `torch.max` over the two probabilities is their
maximum. -/
theorem torchMax2_fst (p : Fin 2 → ℝ) : (torchMax2 p).1 = max (p 0) (p 1) := by
  unfold torchMax2
  by_cases h : p 0 < p 1
  · simp [h, max_eq_right h.le]
  · simp [h, max_eq_left (not_lt.mp h)]

/-- The index component of `torch.max` points at the value component. -/
theorem torchMax2_pair (p : Fin 2 → ℝ) : p (torchMax2 p).2 = (torchMax2 p).1 := by
  unfold torchMax2
  by_cases h : p 0 < p 1 <;> simp [h]

/-! ### Claim theorems -/

/-- C1 (counterexample): with two weight files matching `resnet*.pth` in the
model directory, `model_fn` does not fail: it silently derives the
architecture name from the first match, refuting the claim that it fails
with `ModelNotFoundError` when two or more weight files match. -/
theorem model_fn_two_matches_no_failure :
    (globResnetPth ["resnet18.pth", "resnet34.pth"]).length = 2 ∧
    model_fn_arch ["resnet18.pth", "resnet34.pth"] = .ok "resnet18" :=
  ⟨rfl, rfl⟩

/-- C1 (amended): `model_fn` fails (the `IndexError` the spec calls
`ModelNotFoundError`) exactly when zero weight files match `resnet*.pth`;
when one or more files match it does not fail but uses the first match in
glob order, deriving the architecture name from that filename. -/
theorem model_fn_zero_or_first_match (files : List String) :
    (globResnetPth files = [] → model_fn_arch files = .error .noModelFile) ∧
    (∀ f rest, globResnetPth files = f :: rest →
      model_fn_arch files = .ok (splitextBase f)) := by
  constructor
  · intro h
    unfold model_fn_arch
    rw [h]
  · intro f rest h
    unfold model_fn_arch
    rw [h]

/-- C1 (witness): a directory with no matching file fails, and a directory
with two matching files yields the first one's base name. -/
theorem model_fn_zero_or_first_match_witness :
    model_fn_arch ["config.json"] = .error .noModelFile ∧
    model_fn_arch ["resnet18.pth", "resnet34.pth"] =
      .ok (splitextBase "resnet18.pth") :=
  ⟨(model_fn_zero_or_first_match ["config.json"]).1 rfl,
   (model_fn_zero_or_first_match ["resnet18.pth", "resnet34.pth"]).2
     "resnet18.pth" ["resnet34.pth"] rfl⟩

/-- C2: `predict_fn` converts the raw scores into a probability
distribution via softmax - the reported confidence lies in `[0, 1]`, the
two class probabilities sum to `1` (exactly, in the idealized reals) - and
it returns the class label at the maximum-probability index paired with
that maximum probability. -/
theorem predict_fn_softmax_correct {α : Type} (model : α → Fin 2 → ℝ) (x : α) :
    0 ≤ (predict_fn model x).confidence ∧
    (predict_fn model x).confidence ≤ 1 ∧
    softmax2 (model x) 0 + softmax2 (model x) 1 = 1 ∧
    (predict_fn model x).confidence =
      max (softmax2 (model x) 0) (softmax2 (model x) 1) ∧
    (predict_fn model x).cls = classAt (torchMax2 (softmax2 (model x))).2 ∧
    softmax2 (model x) (torchMax2 (softmax2 (model x))).2 =
      (predict_fn model x).confidence := by
  have hconf : (predict_fn model x).confidence =
      (torchMax2 (softmax2 (model x))).1 := rfl
  refine ⟨?_, ?_, softmax2_sum _, ?_, rfl, torchMax2_pair _⟩
  · rw [hconf, torchMax2_fst]
    exact le_trans (softmax2_nonneg _ 0) (le_max_left _ _)
  · rw [hconf, torchMax2_fst]
    exact max_le (softmax2_le_one _ 0) (softmax2_le_one _ 1)
  · rw [hconf, torchMax2_fst]

/-- C3: `input_fn` accepts only the `image/jpeg` content type; for any
other declared content type it fails with the unsupported-content-type
error, for every request body - in particular without attempting to decode
the body. -/
theorem input_fn_rejects_non_jpeg (size : Nat) (body : RequestBody)
    (ct : String) (h : ct ≠ JPEG_CONTENT_TYPE) :
    input_fn size body ct = .error (.unsupportedContentType ct) := by
  unfold input_fn
  rw [if_neg h]

/-- C3 (witness): a `"image/png"` request is rejected even when its body is
malformed, showing decoding is never attempted. -/
theorem input_fn_rejects_non_jpeg_witness :
    input_fn 224 .malformed "image/png" =
      .error (.unsupportedContentType "image/png") :=
  input_fn_rejects_non_jpeg 224 .malformed "image/png" (by decide)

/-- C4: `output_fn` serializes the prediction to the JSON object
`(\x7b"class": <name>, "confidence": <float>\x7d)` when the accept type is
the JSON content type, and fails with the unsupported-content-type error
for any other accept type. -/
theorem output_fn_json_gate (pred : Response) (accept : String) :
    (accept = JSON_CONTENT_TYPE →
      output_fn pred accept =
        .ok ("\x7b\"class\": \"" ++ pred.cls ++ "\", \"confidence\": " ++
          floatRepr pred.confidence ++ "\x7d", accept)) ∧
    (accept ≠ JSON_CONTENT_TYPE →
      output_fn pred accept = .error (.unsupportedContentType accept)) := by
  refine ⟨?_, ?_⟩
  · intro h
    unfold output_fn
    rw [if_pos h]
    rfl
  · intro h
    unfold output_fn
    rw [if_neg h]

/-- C4 (witness): a JSON accept type serializes, a `"text/csv"` accept type
fails. -/
theorem output_fn_json_gate_witness :
    output_fn ⟨"cats", 1⟩ "application/json" =
      .ok ("\x7b\"class\": \"" ++ "cats" ++ "\", \"confidence\": " ++
        floatRepr (1 : ℚ) ++ "\x7d", "application/json") ∧
    output_fn ⟨"cats", 1⟩ "text/csv" =
      .error (.unsupportedContentType "text/csv") :=
  ⟨(output_fn_json_gate ⟨"cats", 1⟩ "application/json").1 rfl,
   (output_fn_json_gate ⟨"cats", 1⟩ "text/csv").2 (by decide)⟩

/-- C5: `_create_model` resolves an architecture absent from `_model_meta`
to the default metadata with cut point `-1`, and every architecture present
in the mapping (the resnet family) to the resnet metadata with cut point
`-2`. -/
theorem create_model_meta_fallback (a : Arch) :
    (modelMetaGet a = none → createModelMeta a = defaultMeta) ∧
    defaultMeta.cut = -1 ∧
    (∀ m, modelMetaGet a = some m → createModelMeta a = resnetMeta) ∧
    resnetMeta.cut = -2 := by
  refine ⟨?_, rfl, ?_, rfl⟩
  · intro h
    unfold createModelMeta
    rw [h]
    rfl
  · intro m h
    unfold createModelMeta
    rw [h]
    cases a <;> simp [modelMetaGet] at h <;> simp [h]

/-- C5 (witness): an unrecognized backbone falls back to the default
metadata, `resnet34` gets the resnet metadata. -/
theorem create_model_meta_fallback_witness :
    createModelMeta (.other "alexnet") = defaultMeta ∧
    createModelMeta .resnet34 = resnetMeta :=
  ⟨(create_model_meta_fallback (.other "alexnet")).1 rfl,
   (create_model_meta_fallback .resnet34).2.2.1 resnetMeta rfl⟩

/-- C6: `IMAGE_SIZE` defaults to `224` when the environment variable is
unset, and for every parsed size and every input image dimensions the
`_preprocess` pipeline outputs a tensor of shape `(3, size, size)`. -/
theorem preprocess_output_shape :
    imgSizeFromEnv none = some 224 ∧
    ∀ env n, imgSizeFromEnv env = some n →
      ∀ h w : Nat, preprocessShape n (h, w) = [3, n, n] := by
  refine ⟨rfl, ?_⟩
  intro env n _ h w
  rfl

/-- C6 (witness): with `IMAGE_SIZE=299` a 500 by 375 image preprocesses to
shape `(3, 299, 299)`. -/
theorem preprocess_output_shape_witness :
    imgSizeFromEnv none = some 224 ∧
    preprocessShape 299 (500, 375) = [3, 299, 299] :=
  ⟨preprocess_output_shape.1,
   preprocess_output_shape.2 (some "299") 299 rfl 500 375⟩

/-- C7: preprocessing is deterministic - two runs on equal request bodies
(and equal decoded dimensions) yield identical tensors; both the shape
computation and the whole `input_fn` are pure functions of their input. -/
theorem preprocess_deterministic (size : Nat) (b1 b2 : RequestBody)
    (ct : String) (d1 d2 : Nat × Nat) (hb : b1 = b2) (hd : d1 = d2) :
    preprocessShape size d1 = preprocessShape size d2 ∧
    input_fn size b1 ct = input_fn size b2 ct := by
  subst hb
  subst hd
  exact ⟨rfl, rfl⟩

/-- C7 (witness): two runs on the same 500 by 375 jpeg body agree. -/
theorem preprocess_deterministic_witness :
    preprocessShape 224 (500, 375) = preprocessShape 224 (500, 375) ∧
    input_fn 224 (.image 500 375) JPEG_CONTENT_TYPE =
      input_fn 224 (.image 500 375) JPEG_CONTENT_TYPE :=
  preprocess_deterministic 224 (.image 500 375) (.image 500 375)
    JPEG_CONTENT_TYPE (500, 375) (500, 375) rfl rfl

/-- C8: the label set is the fixed ordered pair `("cats", "dogs")` with
position equal to class index, every prediction's class name is obtained by
indexing it with the argmax index, and hence every response's class field
is `"cats"` or `"dogs"`. -/
theorem predict_fn_class_in_label_set {α : Type} (model : α → Fin 2 → ℝ)
    (x : α) :
    classes = ["cats", "dogs"] ∧
    (predict_fn model x).cls = classAt (torchMax2 (softmax2 (model x))).2 ∧
    ((predict_fn model x).cls = "cats" ∨ (predict_fn model x).cls = "dogs") := by
  refine ⟨rfl, rfl, ?_⟩
  have hall : ∀ i : Fin 2, classAt i = "cats" ∨ classAt i = "dogs" := by decide
  exact hall _

/-- C9: with exactly two classes, the maximum of the softmax distribution
is at least one half, so every confidence `predict_fn` reports is at least
`1/2` (exactly, in the idealized reals). -/
theorem predict_fn_confidence_ge_half {α : Type} (model : α → Fin 2 → ℝ)
    (x : α) : (1 : ℝ) / 2 ≤ (predict_fn model x).confidence := by
  have hconf : (predict_fn model x).confidence =
      (torchMax2 (softmax2 (model x))).1 := rfl
  have hsum := softmax2_sum (model x)
  rw [hconf, torchMax2_fst]
  have h0 := le_max_left (softmax2 (model x) 0) (softmax2 (model x) 1)
  have h1 := le_max_right (softmax2 (model x) 0) (softmax2 (model x) 1)
  linarith

/-- C10: whenever `output_fn` succeeds it returns a pair of the serialized
JSON string and the accept content type - the second component always
equals the accepted content type, which is necessarily the JSON type. -/
theorem output_fn_returns_pair (pred : Response) (accept : String)
    (r : String × String) (h : output_fn pred accept = .ok r) :
    r.2 = accept ∧ r.1 = jsonDumpsResponse pred ∧
    accept = JSON_CONTENT_TYPE := by
  unfold output_fn at h
  by_cases hacc : accept = JSON_CONTENT_TYPE
  · rw [if_pos hacc] at h
    cases h
    exact ⟨rfl, rfl, hacc⟩
  · rw [if_neg hacc] at h
    exact absurd h (by simp)

/-- C10 (witness): the successful JSON response carries the accept type as
its second component. -/
theorem output_fn_returns_pair_witness :
    ((jsonDumpsResponse ⟨"dogs", 1⟩, JSON_CONTENT_TYPE) : String × String).2 =
      JSON_CONTENT_TYPE ∧
    ((jsonDumpsResponse ⟨"dogs", 1⟩, JSON_CONTENT_TYPE) : String × String).1 =
      jsonDumpsResponse ⟨"dogs", 1⟩ ∧
    JSON_CONTENT_TYPE = JSON_CONTENT_TYPE :=
  output_fn_returns_pair ⟨"dogs", 1⟩ JSON_CONTENT_TYPE
    (jsonDumpsResponse ⟨"dogs", 1⟩, JSON_CONTENT_TYPE) rfl

end DogsCats
